import Mathlib

/-!
Shallow embedding of `pqrs::osx::file_monitor` (file change watcher).

The embedding models the per-instance mutable state of a `file_monitor`
object (`files_`, `stream_`, `stream_file_paths_`, `file_bodies_`) as an
explicit record, and the dispatcher-thread methods `update_file_bodies`,
`register_stream`, `unregister_stream` and `stream_callback` as pure
state-passing functions that additionally return the list of signals
(`file_changed` / `error_occurred`) enqueued to the dispatcher, in order.

The external world (the filesystem read by `read_file`, the `realpath`
resolution, and the success of `FSEventStreamCreate` / `FSEventStreamStart`)
is an explicit environment record `OSEnv`, held fixed across one
dispatcher-thread call.
-/

/-- Byte sequences: the content of `std::vector<uint8_t>`. -/
abbrev Bytes := List Nat

/-- Model of `std::shared_ptr<std::vector<uint8_t>>` as returned by
`read_file`: `none` is the null pointer (file could not be opened),
`some bs` is an owned buffer with bytes `bs` (possibly empty). -/
abbrev Snapshot := Option Bytes

/-- Model of the filesystem as seen through `std::ifstream`: for each path,
`none` when opening the file fails (absent or unreadable), `some bs` when the
file opens and holds bytes `bs` (an existing empty file gives `some []`). -/
abbrev Filesystem := String → Snapshot

/-- Signals of the monitor: `nod::signal` slots `file_changed` and
`error_occurred`, recorded in the order they are enqueued to the dispatcher. -/
inductive Signal where
  | file_changed (path : String) (body : Snapshot)
  | error_occurred (message : String)
deriving DecidableEq, Repr

/-- Returns `true` exactly on `error_occurred` signals. -/
def Signal.is_error : Signal → Bool
  | .error_occurred _ => true
  | .file_changed _ _ => false

/-- Association-list model of `std::unordered_map<std::string, A>` lookup
(`find`): the value stored at `k`, if any. -/
def alistLookup (m : List (String × A)) (k : String) : Option A :=
  match m with
  | [] => none
  | (k₁, v) :: rest => if k = k₁ then some v else alistLookup rest k

/-- Association-list model of `std::unordered_map` assignment `m[k] = v`:
replaces the stored value, or appends a fresh entry. -/
def alistInsert (m : List (String × A)) (k : String) (v : A) : List (String × A) :=
  match m with
  | [] => [(k, v)]
  | (k₁, v₁) :: rest =>
      if k = k₁ then (k, v) :: rest else (k₁, v₁) :: alistInsert rest k v

/-- Association-list model of `std::unordered_map::erase(it)`: removes the
entry for `k`, if any. -/
def alistErase (m : List (String × A)) (k : String) : List (String × A) :=
  match m with
  | [] => []
  | (k₁, v₁) :: rest => if k = k₁ then rest else (k₁, v₁) :: alistErase rest k

/-- Keys of an association list. -/
def alistKeys (m : List (String × A)) : List String :=
  m.map Prod.fst

/-- Mutable state of one `file_monitor` instance, as seen by the dispatcher
thread:
`files` is the immutable `files_` vector fixed at construction;
`stream` is `true` iff `stream_` is a non-null `FSEventStreamRef`;
`stream_file_paths` is the `stream_file_paths_` map (FSEvent path →
file in `files_`); `file_bodies` is the `file_bodies_` content cache;
`directoriesOk` is `true` iff `directories_ = cf::make_cf_mutable_array()`
succeeded at construction. -/
structure FileMonitorState where
  files : List String
  stream : Bool
  stream_file_paths : List (String × String)
  file_bodies : List (String × Snapshot)
  directoriesOk : Bool
deriving DecidableEq, Repr

/-- State of a freshly constructed `file_monitor(weak_dispatcher, files)`:
no stream, empty maps. -/
def file_monitor_init (files : List String) (directoriesOk : Bool) :
    FileMonitorState :=
  { files := files
    stream := false
    stream_file_paths := []
    file_bodies := []
    directoriesOk := directoriesOk }

/-- Environment of one dispatcher-thread call: the filesystem consulted by
`read_file`, the `pqrs::filesystem::realpath` resolution, and whether
`FSEventStreamCreate` returns non-null / `FSEventStreamStart` returns true. -/
structure OSEnv where
  fs : Filesystem
  realpath : String → Option String
  createOk : Bool
  startOk : Bool

/-- Embedding of `file_monitor::read_file`: opening the file either fails
(null return) or yields a buffer holding the current bytes of the file. -/
def read_file (fs : Filesystem) (path : String) : Snapshot :=
  fs path

/-- Embedding of `file_monitor::update_file_bodies`. Returns the C++ return
value `(updated, file_body)` paired with the successor state. If `file_path`
is not in `files_`, returns `(false, nullptr)` and changes nothing. Otherwise
it reads the file, compares with the cached entry (no entry, or exactly one
of the two null, or both non-null with different bytes, count as changed),
and on change stores the new body in `file_bodies_` and returns it. -/
def update_file_bodies (fs : Filesystem) (s : FileMonitorState)
    (file_path : String) : (Bool × Snapshot) × FileMonitorState :=
  if file_path ∈ s.files then
    let file_body := read_file fs file_path
    match alistLookup s.file_bodies file_path with
    | some cached =>
        match cached, file_body with
        | some a, some b =>
            if a = b then
              ((false, none), s)
            else
              ((true, file_body),
                { s with file_bodies := alistInsert s.file_bodies file_path file_body })
        | none, none => ((false, none), s)
        | _, _ =>
            ((true, file_body),
              { s with file_bodies := alistInsert s.file_bodies file_path file_body })
    | none =>
        ((true, file_body),
          { s with file_bodies := alistInsert s.file_bodies file_path file_body })
  else
    ((false, none), s)

/-- Embedding of the manual signalling loop at the head of
`register_stream` (the initial reconciliation pass): for each file in the
given list, in order, call `update_file_bodies` and enqueue `file_changed`
when it reports an update. -/
def scan_files (fs : Filesystem) (s : FileMonitorState) :
    List String → FileMonitorState × List Signal
  | [] => (s, [])
  | f :: rest =>
      let r := update_file_bodies fs s f
      let tail := scan_files fs r.2 rest
      (tail.1,
        (if r.1.1 then [Signal.file_changed f r.1.2] else []) ++ tail.2)

/-- Embedding of `file_monitor::register_stream`: skip if `stream_` is
already set or `directories_` is null; otherwise run the manual reconciliation
pass over `files_`, then attempt `FSEventStreamCreate` (on null, enqueue an
error and keep `stream_` null) and `FSEventStreamStart` (on failure, enqueue
an error; `stream_` stays set either way). -/
def register_stream (env : OSEnv) (s : FileMonitorState) :
    FileMonitorState × List Signal :=
  if s.stream then
    (s, [])
  else if s.directoriesOk = false then
    (s, [])
  else
    let scan := scan_files env.fs s s.files
    if env.createOk then
      let s₁ := { scan.1 with stream := true }
      if env.startOk then
        (s₁, scan.2)
      else
        (s₁, scan.2 ++ [Signal.error_occurred "FSEventStreamStart is failed."])
    else
      (scan.1, scan.2 ++ [Signal.error_occurred "FSEventStreamCreate is failed."])

/-- Embedding of `file_monitor::unregister_stream`: stop, invalidate and
release the stream, leaving `stream_` null. -/
def unregister_stream (s : FileMonitorState) : FileMonitorState :=
  { s with stream := false }

/-- Embedding of `file_monitor::async_start`: enqueues `register_stream`
onto the dispatcher. -/
def async_start (env : OSEnv) (s : FileMonitorState) :
    FileMonitorState × List Signal :=
  register_stream env s

/-- One captured FSEvent: the reported path and the flag bits consulted by
`stream_callback` (`kFSEventStreamEventFlagRootChanged`, `KernelDropped`,
`UserDropped`, `OwnEvent`), each modelled as a Bool. -/
structure FsEvent where
  file_path : String
  rootChanged : Bool
  kernelDropped : Bool
  userDropped : Bool
  ownEvent : Bool
deriving DecidableEq, Repr

/-- Embedding of the candidate-handling tail of `stream_callback`
(the `if (changed_file_path)` block): re-read the file and diff against the
cache via `update_file_bodies`; when updated and the event is not flagged
`OwnEvent`, enqueue `file_changed` with the new body. -/
def emit_candidate (env : OSEnv) (s : FileMonitorState)
    (file_path : String) (own_event : Bool) : FileMonitorState × List Signal :=
  let r := update_file_bodies env.fs s file_path
  if r.1.1 && !own_event then
    (r.2, [Signal.file_changed file_path r.1.2])
  else
    (r.2, [])

/-- Embedding of the per-event body of `stream_callback`: recovery-flagged
events re-register the stream; otherwise the reported path is mapped back to
a file of `files_` through `realpath` (recording the alias on success) or
through a stored alias (consuming it) when `realpath` fails, and the
candidate, if any, is diffed and signalled. -/
def process_event (env : OSEnv) (s : FileMonitorState) (e : FsEvent) :
    FileMonitorState × List Signal :=
  if e.rootChanged || e.kernelDropped || e.userDropped then
    register_stream env (unregister_stream s)
  else
    match env.realpath e.file_path with
    | some rp =>
        match s.files.find? (fun p => env.realpath p == some rp) with
        | some logical =>
            emit_candidate env
              { s with stream_file_paths :=
                  alistInsert s.stream_file_paths e.file_path logical }
              logical e.ownEvent
        | none => (s, [])
    | none =>
        match alistLookup s.stream_file_paths e.file_path with
        | some logical =>
            emit_candidate env
              { s with stream_file_paths :=
                  alistErase s.stream_file_paths e.file_path }
              logical e.ownEvent
        | none => (s, [])

/-- Embedding of `file_monitor::stream_callback`: process the captured
events strictly in delivery order, concatenating the enqueued signals. -/
def stream_callback (env : OSEnv) (s : FileMonitorState) :
    List FsEvent → FileMonitorState × List Signal
  | [] => (s, [])
  | e :: rest =>
      let r := process_event env s e
      let tail := stream_callback env r.1 rest
      (tail.1, r.2 ++ tail.2)

/-! ## Helper lemmas -/

theorem alistLookup_insert (m : List (String × A)) (k : String) (v : A)
    (k₁ : String) :
    alistLookup (alistInsert m k v) k₁ =
      if k₁ = k then some v else alistLookup m k₁ := by
  induction m with
  | nil =>
      simp only [alistInsert, alistLookup]
  | cons hd tl ih =>
      obtain ⟨k₂, v₂⟩ := hd
      by_cases hk : k = k₂
      · subst hk
        simp only [alistInsert, if_pos rfl, alistLookup]
        by_cases h₁ : k₁ = k <;> simp [h₁]
      · simp only [alistInsert, if_neg hk, alistLookup]
        by_cases h₁ : k₁ = k₂
        · subst h₁
          have : ¬(k₁ = k) := fun h => hk h.symm
          simp [this]
        · simp [h₁, ih]

theorem mem_alistKeys_insert (m : List (String × A)) (k : String) (v : A)
    (k₁ : String) (h : k₁ ∈ alistKeys (alistInsert m k v)) :
    k₁ = k ∨ k₁ ∈ alistKeys m := by
  induction m with
  | nil =>
      simp only [alistInsert, alistKeys, List.map_cons, List.map_nil,
        List.mem_singleton] at h
      exact Or.inl h
  | cons hd tl ih =>
      obtain ⟨k₂, v₂⟩ := hd
      by_cases hk : k = k₂
      · subst hk
        simp only [alistInsert, if_pos rfl, eq_self_iff_true, if_true,
          alistKeys, List.map_cons, List.mem_cons] at h ⊢
        tauto
      · simp only [alistInsert, if_neg hk, alistKeys, List.map_cons,
          List.mem_cons] at h ⊢
        rcases h with h | h
        · tauto
        · rcases ih h with h₁ | h₁ <;> tauto

/-- Characterization of `update_file_bodies` on a watched path: the pair
`(updated, returned body)` and the successor cache are decided by whether the
cache holds an entry equal to the freshly read snapshot. -/
theorem update_file_bodies_eq (fs : Filesystem) (s : FileMonitorState)
    (path : String) (h : path ∈ s.files) :
    update_file_bodies fs s path =
      if alistLookup s.file_bodies path = some (fs path) then
        ((false, none), s)
      else
        ((true, fs path),
          { s with file_bodies := alistInsert s.file_bodies path (fs path) }) := by
  unfold update_file_bodies read_file
  rw [if_pos h]
  cases hc : alistLookup s.file_bodies path with
  | none =>
      have : ¬((none : Option Snapshot) = some (fs path)) := by simp
      simp [this]
  | some cached =>
      cases cached with
      | none =>
          cases hb : fs path with
          | none => simp
          | some b => simp
      | some a =>
          cases hb : fs path with
          | none => simp
          | some b =>
              by_cases hab : a = b
              · subst hab
                simp
              · simp [hab, Option.some_inj]

/-- Calling `update_file_bodies` on an unwatched path returns `(false, nullptr)` and
changes nothing. -/
theorem update_file_bodies_not_mem (fs : Filesystem) (s : FileMonitorState)
    (path : String) (h : path ∉ s.files) :
    update_file_bodies fs s path = ((false, none), s) := by
  unfold update_file_bodies
  rw [if_neg h]

/-- Frame property: `update_file_bodies` changes at most the `file_bodies` field. -/
theorem update_file_bodies_frame (fs : Filesystem) (s : FileMonitorState)
    (path : String) :
    ∃ fb, (update_file_bodies fs s path).2 = { s with file_bodies := fb } := by
  by_cases h : path ∈ s.files
  · rw [update_file_bodies_eq fs s path h]
    by_cases hc : alistLookup s.file_bodies path = some (fs path)
    · exact ⟨s.file_bodies, by rw [if_pos hc]⟩
    · exact ⟨alistInsert s.file_bodies path (fs path), by rw [if_neg hc]⟩
  · rw [update_file_bodies_not_mem fs s path h]
    exact ⟨s.file_bodies, rfl⟩

theorem update_file_bodies_files (fs : Filesystem) (s : FileMonitorState)
    (path : String) : (update_file_bodies fs s path).2.files = s.files := by
  obtain ⟨fb, hfb⟩ := update_file_bodies_frame fs s path
  rw [hfb]

theorem update_file_bodies_stream (fs : Filesystem) (s : FileMonitorState)
    (path : String) : (update_file_bodies fs s path).2.stream = s.stream := by
  obtain ⟨fb, hfb⟩ := update_file_bodies_frame fs s path
  rw [hfb]

theorem update_file_bodies_lookup_other (fs : Filesystem)
    (s : FileMonitorState) (path q : String) (hq : q ≠ path) :
    alistLookup (update_file_bodies fs s path).2.file_bodies q =
      alistLookup s.file_bodies q := by
  by_cases h : path ∈ s.files
  · rw [update_file_bodies_eq fs s path h]
    by_cases hc : alistLookup s.file_bodies path = some (fs path)
    · rw [if_pos hc]
    · rw [if_neg hc]
      simp only
      rw [alistLookup_insert, if_neg hq]
  · rw [update_file_bodies_not_mem fs s path h]

theorem update_file_bodies_spf (fs : Filesystem) (s : FileMonitorState)
    (path : String) :
    (update_file_bodies fs s path).2.stream_file_paths = s.stream_file_paths := by
  obtain ⟨fb, hfb⟩ := update_file_bodies_frame fs s path
  rw [hfb]

theorem update_file_bodies_dirs (fs : Filesystem) (s : FileMonitorState)
    (path : String) :
    (update_file_bodies fs s path).2.directoriesOk = s.directoriesOk := by
  obtain ⟨fb, hfb⟩ := update_file_bodies_frame fs s path
  rw [hfb]

theorem scan_files_stream (fs : Filesystem) (s : FileMonitorState)
    (l : List String) : (scan_files fs s l).1.stream = s.stream := by
  induction l generalizing s with
  | nil => rfl
  | cons f rest ih =>
      show (scan_files fs (update_file_bodies fs s f).2 rest).1.stream = s.stream
      rw [ih, update_file_bodies_stream]

theorem scan_files_files (fs : Filesystem) (s : FileMonitorState)
    (l : List String) : (scan_files fs s l).1.files = s.files := by
  induction l generalizing s with
  | nil => rfl
  | cons f rest ih =>
      show (scan_files fs (update_file_bodies fs s f).2 rest).1.files = s.files
      rw [ih, update_file_bodies_files]

/-- No signal produced by the manual scan is an error. -/
theorem scan_files_no_error (fs : Filesystem) (s : FileMonitorState)
    (l : List String) :
    ∀ sig ∈ (scan_files fs s l).2, sig.is_error = false := by
  induction l generalizing s with
  | nil => intro sig hsig; simp [scan_files] at hsig
  | cons f rest ih =>
      intro sig hsig
      simp only [scan_files, List.mem_append] at hsig
      rcases hsig with hsig | hsig
      · by_cases hu : (update_file_bodies fs s f).1.1
        · rw [if_pos hu] at hsig
          simp only [List.mem_singleton] at hsig
          subst hsig
          rfl
        · rw [if_neg hu] at hsig
          simp at hsig
      · exact ih _ sig hsig

/-- On a Nodup list of paths all watched and all absent from the cache, the
manual scan emits exactly one `file_changed` signal per path, carrying the
snapshot read from the filesystem, in order. -/
theorem scan_files_fresh (fs : Filesystem) (s : FileMonitorState)
    (l : List String) (hnd : l.Nodup)
    (hsub : ∀ f ∈ l, f ∈ s.files)
    (hfresh : ∀ f ∈ l, alistLookup s.file_bodies f = none) :
    (scan_files fs s l).2 = l.map fun f => Signal.file_changed f (fs f) := by
  induction l generalizing s with
  | nil => simp [scan_files]
  | cons f rest ih =>
      have hmem : f ∈ s.files := hsub f (List.mem_cons_self f rest)
      have hl : alistLookup s.file_bodies f = none :=
        hfresh f (List.mem_cons_self f rest)
      have hcond : ¬(alistLookup s.file_bodies f = some (fs f)) := by
        rw [hl]; simp
      have hupd : update_file_bodies fs s f =
          ((true, fs f),
            { s with file_bodies := alistInsert s.file_bodies f (fs f) }) := by
        rw [update_file_bodies_eq fs s f hmem, if_neg hcond]
      have hnd₁ : rest.Nodup := hnd.of_cons
      have hfnot : f ∉ rest := by
        rcases List.nodup_cons.mp hnd with ⟨hf, _⟩
        exact hf
      simp only [scan_files, hupd, List.map_cons]
      rw [ih _ hnd₁]
      · simp
      · intro g hg
        exact hsub g (List.mem_cons_of_mem f hg)
      · intro g hg
        have hgf : g ≠ f := fun hgf => hfnot (hgf ▸ hg)
        simp only [alistLookup_insert, if_neg hgf]
        exact hfresh g (List.mem_cons_of_mem f hg)

/-- When not skipped, `register_stream` with a successful
`FSEventStreamCreate` leaves the stream handle set. -/
theorem register_stream_stream_set (env : OSEnv) (s : FileMonitorState)
    (h₁ : s.stream = false) (h₂ : s.directoriesOk = true)
    (h₃ : env.createOk = true) :
    (register_stream env s).1.stream = true := by
  unfold register_stream
  rw [h₁, h₂]
  simp only [Bool.false_eq_true, if_false, if_true, h₃]
  by_cases hs : env.startOk <;> simp [hs]

/-- Skip rule: `register_stream` is a no-op when the stream already exists. -/
theorem register_stream_skip (env : OSEnv) (s : FileMonitorState)
    (h : s.stream = true) : register_stream env s = (s, []) := by
  unfold register_stream
  rw [h]
  simp

/-- The successor state of `emit_candidate` is exactly the successor state of
`update_file_bodies`; the own-event flag only gates the signal. -/
theorem emit_candidate_state (env : OSEnv) (s : FileMonitorState)
    (path : String) (own_event : Bool) :
    (emit_candidate env s path own_event).1 =
      (update_file_bodies env.fs s path).2 := by
  simp only [emit_candidate]
  split <;> rfl

/-- No signal produced by `emit_candidate` is an error. -/
theorem emit_candidate_no_error (env : OSEnv) (s : FileMonitorState)
    (path : String) (own_event : Bool) :
    ∀ sig ∈ (emit_candidate env s path own_event).2, sig.is_error = false := by
  simp only [emit_candidate]
  split
  · intro sig hsig
    simp only [List.mem_singleton] at hsig
    subst hsig
    rfl
  · intro sig hsig
    simp at hsig

/-- Invariant: every key of the content cache `file_bodies_` names a file of
`files_`. -/
def cache_inv (s : FileMonitorState) : Prop :=
  ∀ k ∈ alistKeys s.file_bodies, k ∈ s.files

theorem cache_inv_update (fs : Filesystem) (s : FileMonitorState)
    (path : String) (h : cache_inv s) :
    cache_inv (update_file_bodies fs s path).2 := by
  by_cases hmem : path ∈ s.files
  · rw [update_file_bodies_eq fs s path hmem]
    by_cases hc : alistLookup s.file_bodies path = some (fs path)
    · rw [if_pos hc]
      exact h
    · rw [if_neg hc]
      intro k hk
      rcases mem_alistKeys_insert s.file_bodies path (fs path) k hk with hk₁ | hk₁
      · subst hk₁
        exact hmem
      · exact h k hk₁
  · rw [update_file_bodies_not_mem fs s path hmem]
    exact h

theorem cache_inv_scan (fs : Filesystem) (s : FileMonitorState)
    (l : List String) (h : cache_inv s) : cache_inv (scan_files fs s l).1 := by
  induction l generalizing s with
  | nil => exact h
  | cons f rest ih =>
      show cache_inv (scan_files fs (update_file_bodies fs s f).2 rest).1
      exact ih _ (cache_inv_update fs s f h)

theorem cache_inv_register (env : OSEnv) (s : FileMonitorState)
    (h : cache_inv s) : cache_inv (register_stream env s).1 := by
  unfold register_stream
  split
  · exact h
  · split
    · exact h
    · split
      · split
        · exact cache_inv_scan env.fs s s.files h
        · exact cache_inv_scan env.fs s s.files h
      · exact cache_inv_scan env.fs s s.files h

theorem cache_inv_process_event (env : OSEnv) (s : FileMonitorState)
    (e : FsEvent) (h : cache_inv s) : cache_inv (process_event env s e).1 := by
  unfold process_event
  split
  · exact cache_inv_register env (unregister_stream s) h
  · split
    · split
      · rw [emit_candidate_state]
        exact cache_inv_update env.fs _ _ h
      · exact h
    · split
      · rw [emit_candidate_state]
        exact cache_inv_update env.fs _ _ h
      · exact h

theorem cache_inv_stream_callback (env : OSEnv) (s : FileMonitorState)
    (es : List FsEvent) (h : cache_inv s) :
    cache_inv (stream_callback env s es).1 := by
  induction es generalizing s with
  | nil => exact h
  | cons e rest ih =>
      show cache_inv (stream_callback env (process_event env s e).1 rest).1
      exact ih _ (cache_inv_process_event env s e h)

/-- Skip rule: `register_stream` is a no-op when `directories_` is null. -/
theorem register_stream_no_dirs (env : OSEnv) (s : FileMonitorState)
    (h : s.directoriesOk = false) : register_stream env s = (s, []) := by
  unfold register_stream
  by_cases h₁ : s.stream <;> simp [h₁, h]

/-- Shape of `register_stream` when the subscription is created and started
successfully: the scan runs, the stream handle is set, no error is enqueued. -/
theorem register_stream_output_ok (env : OSEnv) (s : FileMonitorState)
    (h₁ : s.stream = false) (h₂ : s.directoriesOk = true)
    (h₃ : env.createOk = true) (h₄ : env.startOk = true) :
    register_stream env s =
      ({ (scan_files env.fs s s.files).1 with stream := true },
        (scan_files env.fs s s.files).2) := by
  unfold register_stream
  rw [h₁, h₂]
  simp [h₃, h₄]

/-- Shape of `register_stream` when `FSEventStreamCreate` fails: the scan
runs, the stream handle stays null, and an error is enqueued last. -/
theorem register_stream_output_create_fail (env : OSEnv)
    (s : FileMonitorState) (h₁ : s.stream = false) (h₂ : s.directoriesOk = true)
    (h₃ : env.createOk = false) :
    register_stream env s =
      ((scan_files env.fs s s.files).1,
        (scan_files env.fs s s.files).2 ++
          [Signal.error_occurred "FSEventStreamCreate is failed."]) := by
  unfold register_stream
  rw [h₁, h₂]
  simp [h₃]

/-- Shape of `register_stream` when creation succeeds but
`FSEventStreamStart` fails: the scan runs, the stream handle is set anyway,
and an error is enqueued last. -/
theorem register_stream_output_start_fail (env : OSEnv)
    (s : FileMonitorState) (h₁ : s.stream = false) (h₂ : s.directoriesOk = true)
    (h₃ : env.createOk = true) (h₄ : env.startOk = false) :
    register_stream env s =
      ({ (scan_files env.fs s s.files).1 with stream := true },
        (scan_files env.fs s s.files).2 ++
          [Signal.error_occurred "FSEventStreamStart is failed."]) := by
  unfold register_stream
  rw [h₁, h₂]
  simp [h₃, h₄]

/-- Reduction of `process_event` on a non-recovery event whose path
canonicalizes to the realpath of a watched file: the alias is recorded and
the watched file becomes the candidate. -/
theorem process_event_realpath_hit (env : OSEnv) (s : FileMonitorState)
    (e : FsEvent) (rp logical : String)
    (hflags : (e.rootChanged || e.kernelDropped || e.userDropped) = false)
    (hrp : env.realpath e.file_path = some rp)
    (hfind : s.files.find? (fun p => env.realpath p == some rp) = some logical) :
    process_event env s e =
      emit_candidate env
        { s with stream_file_paths :=
            alistInsert s.stream_file_paths e.file_path logical }
        logical e.ownEvent := by
  unfold process_event
  simp only [hflags, Bool.false_eq_true, if_false, hrp, hfind]

/-- Reduction of `process_event` on a non-recovery event whose path
canonicalizes but matches no watched file: the event is ignored. -/
theorem process_event_realpath_nomatch (env : OSEnv) (s : FileMonitorState)
    (e : FsEvent) (rp : String)
    (hflags : (e.rootChanged || e.kernelDropped || e.userDropped) = false)
    (hrp : env.realpath e.file_path = some rp)
    (hfind : s.files.find? (fun p => env.realpath p == some rp) = none) :
    process_event env s e = (s, []) := by
  unfold process_event
  simp only [hflags, Bool.false_eq_true, if_false, hrp, hfind]

/-- Reduction of `process_event` on a non-recovery event whose path fails to
canonicalize but has a stored alias: the alias is consumed and the aliased
file becomes the candidate. -/
theorem process_event_alias_hit (env : OSEnv) (s : FileMonitorState)
    (e : FsEvent) (logical : String)
    (hflags : (e.rootChanged || e.kernelDropped || e.userDropped) = false)
    (hrp : env.realpath e.file_path = none)
    (hl : alistLookup s.stream_file_paths e.file_path = some logical) :
    process_event env s e =
      emit_candidate env
        { s with stream_file_paths :=
            alistErase s.stream_file_paths e.file_path }
        logical e.ownEvent := by
  unfold process_event
  simp only [hflags, Bool.false_eq_true, if_false, hrp, hl]

/-- Reduction of `process_event` on a non-recovery event whose path neither
canonicalizes nor has a stored alias: the event is ignored. -/
theorem process_event_alias_miss (env : OSEnv) (s : FileMonitorState)
    (e : FsEvent)
    (hflags : (e.rootChanged || e.kernelDropped || e.userDropped) = false)
    (hrp : env.realpath e.file_path = none)
    (hl : alistLookup s.stream_file_paths e.file_path = none) :
    process_event env s e = (s, []) := by
  unfold process_event
  simp only [hflags, Bool.false_eq_true, if_false, hrp, hl]

/-- Reduction of `process_event` on a recovery-flagged event: tear down and
re-register. -/
theorem process_event_recovery (env : OSEnv) (s : FileMonitorState)
    (e : FsEvent)
    (hflags : (e.rootChanged || e.kernelDropped || e.userDropped) = true) :
    process_event env s e = register_stream env (unregister_stream s) := by
  unfold process_event
  rw [if_pos hflags]

/-- C1 (amended): for every watched file path, a `file_changed` signal for a
non-own event is emitted iff the newly read snapshot differs from the cache
ENTRY, where a path that has no `file_bodies_` entry yet always counts as
changed, even when the new read is also absent; when an entry exists,
entry-absent→absent and bytes→equal-bytes emit nothing, while
absent→bytes, bytes→absent and bytes→different-bytes each emit exactly one
signal carrying the logical path and the new snapshot. -/
theorem C1_diff_rule (env : OSEnv) (s : FileMonitorState) (path : String)
    (hmem : path ∈ s.files) :
    (emit_candidate env s path false).2 =
      if alistLookup s.file_bodies path = some (env.fs path) then []
      else [Signal.file_changed path (env.fs path)] := by
  by_cases hc : alistLookup s.file_bodies path = some (env.fs path)
  · simp only [emit_candidate, update_file_bodies_eq env.fs s path hmem,
      if_pos hc]
    simp
  · simp only [emit_candidate, update_file_bodies_eq env.fs s path hmem,
      if_neg hc]
    simp

/-- C1 counterexample: in the initial state the cached snapshot of the
watched file "a" is absent (the cache is empty) and the filesystem read is
also absent (`fun _ => none`), yet processing "a" as a candidate emits one
`file_changed` signal, refuting that an absent→absent pair emits nothing. -/
theorem C1_counterexample :
    (emit_candidate ⟨fun _ => none, fun _ => none, true, true⟩
        (file_monitor_init ["a"] true) "a" false).2 =
      [Signal.file_changed "a" none] := by
  rfl

/-- C1 witness: concrete instantiation of the amended diff rule at a state
whose cache holds bytes `[1]` for "a" while the filesystem now holds `[2]`. -/
theorem C1_witness :
    "a" ∈ (⟨["a"], true, [], [("a", some [1])], true⟩ : FileMonitorState).files ∧
    (emit_candidate ⟨fun _ => some [2], fun _ => none, true, true⟩
        (⟨["a"], true, [], [("a", some [1])], true⟩ : FileMonitorState)
        "a" false).2 =
      [Signal.file_changed "a" (some [2])] := by
  refine ⟨by decide, ?_⟩
  have h := C1_diff_rule ⟨fun _ => some [2], fun _ => none, true, true⟩
      ⟨["a"], true, [], [("a", some [1])], true⟩ "a" (by decide)
  simpa [alistLookup] using h

/-- C2 (amended): in the initial reconciliation pass run at start, every
watched file is read once and diffed against the initially EMPTY cache; since
a path with no cache entry always counts as changed, every distinct watched
file produces exactly one `file_changed` signal carrying its current
snapshot — a file that does not exist or is unreadable at start produces a
signal with the absent snapshot, not silence. -/
theorem C2_initial_scan (env : OSEnv) (files : List String)
    (hnd : files.Nodup) (hco : env.createOk = true) (hso : env.startOk = true) :
    (register_stream env (file_monitor_init files true)).2 =
      files.map fun f => Signal.file_changed f (env.fs f) := by
  rw [register_stream_output_ok env (file_monitor_init files true) rfl rfl hco hso]
  exact scan_files_fresh env.fs (file_monitor_init files true) files hnd
    (fun f hf => hf) (fun f hf => rfl)

/-- C2 counterexample: at start, watched file "a" does not exist (every read
fails), yet the initial pass emits a `file_changed` signal for "a" (with the
absent snapshot), refuting that such a file produces no notification. -/
theorem C2_counterexample :
    (register_stream ⟨fun _ => none, fun _ => none, true, true⟩
        (file_monitor_init ["a"] true)).2 =
      [Signal.file_changed "a" none] := by
  rfl

/-- C2 witness: concrete initial pass over two files, one readable and one
absent, emitting one signal per file in order. -/
theorem C2_witness :
    (["a", "b"] : List String).Nodup ∧
    (register_stream
        ⟨fun p => if p = "a" then some [3] else none, fun _ => none, true, true⟩
        (file_monitor_init ["a", "b"] true)).2 =
      [Signal.file_changed "a" (some [3]), Signal.file_changed "b" none] := by
  refine ⟨by decide, ?_⟩
  rw [C2_initial_scan
      ⟨fun p => if p = "a" then some [3] else none, fun _ => none, true, true⟩
      ["a", "b"] (by decide) rfl rfl]
  rfl

/-- C9: `update_file_bodies` on a path outside the constructed watched-file
list returns `(false, nullptr)` and leaves the state (in particular the
content cache) completely unchanged; consequently the invariant that every
key of the content cache is a watched file is preserved by
`update_file_bodies`, by `register_stream` and by `stream_callback`. -/
theorem C9_cache_keys_watched (env : OSEnv) (s : FileMonitorState)
    (path : String) (es : List FsEvent) :
    (path ∉ s.files → update_file_bodies env.fs s path = ((false, none), s)) ∧
    (cache_inv s → cache_inv (update_file_bodies env.fs s path).2) ∧
    (cache_inv s → cache_inv (register_stream env s).1) ∧
    (cache_inv s → cache_inv (stream_callback env s es).1) :=
  ⟨update_file_bodies_not_mem env.fs s path,
    cache_inv_update env.fs s path,
    cache_inv_register env s,
    cache_inv_stream_callback env s es⟩

/-- C9 witness: updating the unwatched path "b" in a fresh monitor watching
only "a" returns `(false, nullptr)` and leaves the state unchanged. -/
theorem C9_witness :
    ("b" ∉ (file_monitor_init ["a"] true).files) ∧
    update_file_bodies (fun _ => none) (file_monitor_init ["a"] true) "b" =
      ((false, none), file_monitor_init ["a"] true) := by
  refine ⟨by decide, ?_⟩
  exact (C9_cache_keys_watched ⟨fun _ => none, fun _ => none, true, true⟩
      (file_monitor_init ["a"] true) "b" []).1 (by decide)

/-- C10: an existing empty file is read as the empty byte buffer, which is
distinct from the absent snapshot: for a watched path cached as absent,
creating an empty file at it counts as a change (one `file_changed` signal
carrying the empty snapshot), and then deleting that empty file counts as a
change back to absent (one `file_changed` signal carrying the absent
snapshot). -/
theorem C10_empty_file_distinct (env env₁ : OSEnv) (s : FileMonitorState)
    (path : String) (hmem : path ∈ s.files)
    (hcache : alistLookup s.file_bodies path = some none)
    (h₁ : env.fs path = some []) (h₂ : env₁.fs path = none) :
    (emit_candidate env s path false).2 =
      [Signal.file_changed path (some [])] ∧
    (emit_candidate env₁ (emit_candidate env s path false).1 path false).2 =
      [Signal.file_changed path none] := by
  have hc₁ : ¬(alistLookup s.file_bodies path = some (env.fs path)) := by
    rw [hcache, h₁]
    simp
  have hm₁ : path ∈ (emit_candidate env s path false).1.files := by
    rw [emit_candidate_state, update_file_bodies_files]
    exact hmem
  have hc₂ : alistLookup (emit_candidate env s path false).1.file_bodies path =
      some (env.fs path) := by
    rw [emit_candidate_state, update_file_bodies_eq env.fs s path hmem,
      if_neg hc₁]
    simp [alistLookup_insert]
  have hne : ¬(alistLookup (emit_candidate env s path false).1.file_bodies path =
      some (env₁.fs path)) := by
    rw [hc₂, h₁, h₂]
    simp
  constructor
  · simp only [emit_candidate, update_file_bodies_eq env.fs s path hmem,
      if_neg hc₁]
    simp [h₁]
  · generalize ht : (emit_candidate env s path false).1 = t at hm₁ hne
    simp only [emit_candidate, update_file_bodies_eq env₁.fs t path hm₁,
      if_neg hne]
    simp [h₂]

/-- C10 witness: a monitor watching "a" with "a" cached as absent; an empty
file appears (read as `some []`) and is then deleted (read fails). -/
theorem C10_witness :
    ("a" ∈ (⟨["a"], true, [], [("a", none)], true⟩ : FileMonitorState).files) ∧
    alistLookup
      (⟨["a"], true, [], [("a", none)], true⟩ : FileMonitorState).file_bodies
      "a" = some none ∧
    (emit_candidate ⟨fun _ => some [], fun _ => none, true, true⟩
        (⟨["a"], true, [], [("a", none)], true⟩ : FileMonitorState)
        "a" false).2 = [Signal.file_changed "a" (some [])] ∧
    (emit_candidate ⟨fun _ => none, fun _ => none, true, true⟩
        (emit_candidate ⟨fun _ => some [], fun _ => none, true, true⟩
          (⟨["a"], true, [], [("a", none)], true⟩ : FileMonitorState)
          "a" false).1
        "a" false).2 = [Signal.file_changed "a" none] := by
  refine ⟨by decide, by decide, ?_⟩
  exact C10_empty_file_distinct
    ⟨fun _ => some [], fun _ => none, true, true⟩
    ⟨fun _ => none, fun _ => none, true, true⟩
    ⟨["a"], true, [], [("a", none)], true⟩ "a"
    (by decide) (by decide) rfl rfl

/-- C3 (amended): a delivered event carrying a root-changed, kernel-dropped
or user-dropped flag tears the session down and recreates it via
`register_stream`, and the reconciliation pass IS re-run as part of this
resubscription: every watched file is re-read and diffed against the cache,
so the resubscribe step itself emits a `file_changed` signal for every file
whose content changed during the gap (its non-error output is exactly the
output of the scan). -/
theorem C3_resubscribe (env : OSEnv) (s : FileMonitorState) (e : FsEvent)
    (hflags : (e.rootChanged || e.kernelDropped || e.userDropped) = true) :
    process_event env s e = register_stream env (unregister_stream s) ∧
    (s.directoriesOk = true →
      ((process_event env s e).2.filter fun sig => !sig.is_error) =
        (scan_files env.fs (unregister_stream s) s.files).2) := by
  have heq := process_event_recovery env s e hflags
  refine ⟨heq, fun hd => ?_⟩
  rw [heq]
  have hkeep : ∀ sig ∈
      (scan_files env.fs (unregister_stream s) (unregister_stream s).files).2,
      (!sig.is_error) = true := by
    intro sig hsig
    rw [scan_files_no_error env.fs _ _ sig hsig]
    rfl
  have hd₁ : (unregister_stream s).directoriesOk = true := hd
  cases hco : env.createOk with
  | true =>
      cases hso : env.startOk with
      | true =>
          rw [register_stream_output_ok env _ rfl hd₁ hco hso]
          exact List.filter_eq_self.mpr hkeep
      | false =>
          rw [register_stream_output_start_fail env _ rfl hd₁ hco hso]
          show ((scan_files env.fs (unregister_stream s)
              (unregister_stream s).files).2 ++
              [Signal.error_occurred "FSEventStreamStart is failed."]).filter
              (fun sig => !sig.is_error) = _
          rw [List.filter_append, List.filter_eq_self.mpr hkeep]
          simp only [Signal.is_error, List.filter_cons, List.filter_nil,
            Bool.not_true, Bool.false_eq_true, if_false, List.append_nil]
          rfl
  | false =>
      rw [register_stream_output_create_fail env _ rfl hd₁ hco]
      show ((scan_files env.fs (unregister_stream s)
          (unregister_stream s).files).2 ++
          [Signal.error_occurred "FSEventStreamCreate is failed."]).filter
          (fun sig => !sig.is_error) = _
      rw [List.filter_append, List.filter_eq_self.mpr hkeep]
      simp only [Signal.is_error, List.filter_cons, List.filter_nil,
        Bool.not_true, Bool.false_eq_true, if_false, List.append_nil]
      rfl

/-- C3 counterexample: a kernel-dropped event arrives while "a" is cached
with bytes `[1]` but now holds `[2]` on disk; the resubscribe step itself
emits a `file_changed` signal for "a", refuting that the reconciliation pass
is not re-run and that no notification is produced by resubscription. -/
theorem C3_counterexample :
    (process_event
        ⟨fun p => if p = "a" then some [2] else none, fun _ => none, true, true⟩
        (⟨["a"], true, [], [("a", some [1])], true⟩ : FileMonitorState)
        ⟨"x", false, true, false, false⟩).2 =
      [Signal.file_changed "a" (some [2])] := by
  rfl

/-- C3 witness: concrete recovery event handled by tearing down and
re-registering the stream. -/
theorem C3_witness :
    process_event ⟨fun _ => none, fun _ => none, true, true⟩
        (⟨["a"], true, [], [("a", none)], true⟩ : FileMonitorState)
        ⟨"x", true, false, false, false⟩ =
      register_stream ⟨fun _ => none, fun _ => none, true, true⟩
        (unregister_stream (⟨["a"], true, [], [("a", none)], true⟩ :
          FileMonitorState)) :=
  (C3_resubscribe ⟨fun _ => none, fun _ => none, true, true⟩
    ⟨["a"], true, [], [("a", none)], true⟩
    ⟨"x", true, false, false, false⟩ (by decide)).1

/-- C4 (amended): when `FSEventStreamCreate` fails, the session ends with the
stream handle null (Unregistered) and an error is reported; when creation
succeeds but `FSEventStreamStart` fails, an error is reported but the
subscription handle is RETAINED (`stream_` stays non-null), so the session
does not return to the Unregistered state. -/
theorem C4_subscription_failure (env : OSEnv) (s : FileMonitorState)
    (h₁ : s.stream = false) (h₂ : s.directoriesOk = true) :
    (env.createOk = false →
      (register_stream env s).1.stream = false ∧
      Signal.error_occurred "FSEventStreamCreate is failed." ∈
        (register_stream env s).2) ∧
    (env.createOk = true → env.startOk = false →
      (register_stream env s).1.stream = true ∧
      Signal.error_occurred "FSEventStreamStart is failed." ∈
        (register_stream env s).2) := by
  constructor
  · intro hco
    rw [register_stream_output_create_fail env s h₁ h₂ hco]
    constructor
    · show (scan_files env.fs s s.files).1.stream = false
      rw [scan_files_stream]
      exact h₁
    · simp
  · intro hco hso
    rw [register_stream_output_start_fail env s h₁ h₂ hco hso]
    exact ⟨rfl, by simp⟩

/-- C4 counterexample: creation succeeds and `FSEventStreamStart` fails, yet
the stream handle is retained (`stream ≠ null`), refuting that a start
failure leaves the Watch Session in the Unregistered state. -/
theorem C4_counterexample :
    (register_stream ⟨fun _ => none, fun _ => none, true, false⟩
        (file_monitor_init [] true)).1.stream = true ∧
    (register_stream ⟨fun _ => none, fun _ => none, true, false⟩
        (file_monitor_init [] true)).2 =
      [Signal.error_occurred "FSEventStreamStart is failed."] := by
  exact ⟨rfl, rfl⟩

/-- C4 witness: concrete creation failure leaving the stream null with the
creation error reported. -/
theorem C4_witness :
    (register_stream ⟨fun _ => none, fun _ => none, false, true⟩
        (file_monitor_init ["a"] true)).1.stream = false ∧
    Signal.error_occurred "FSEventStreamCreate is failed." ∈
      (register_stream ⟨fun _ => none, fun _ => none, false, true⟩
        (file_monitor_init ["a"] true)).2 :=
  (C4_subscription_failure ⟨fun _ => none, fun _ => none, false, true⟩
    (file_monitor_init ["a"] true) rfl rfl).1 rfl

/-- C5: for a delivered non-recovery event resolving to watched file
`logical` whose newly read content differs from the cache, if the event is
flagged `OwnEvent` then no `file_changed` signal is emitted, but the content
cache is still updated to the new snapshot, so a later external change is
diffed against the updated baseline. -/
theorem C5_own_event_suppression (env : OSEnv) (s : FileMonitorState)
    (e : FsEvent) (rp logical : String)
    (hflags : (e.rootChanged || e.kernelDropped || e.userDropped) = false)
    (hown : e.ownEvent = true)
    (hrp : env.realpath e.file_path = some rp)
    (hfind : s.files.find? (fun p => env.realpath p == some rp) = some logical)
    (hdiff : ¬(alistLookup s.file_bodies logical = some (env.fs logical))) :
    (process_event env s e).2 = [] ∧
    alistLookup (process_event env s e).1.file_bodies logical =
      some (env.fs logical) := by
  have heq := process_event_realpath_hit env s e rp logical hflags hrp hfind
  have hmem : logical ∈ s.files := List.mem_of_find?_eq_some hfind
  set s₁ : FileMonitorState :=
    { s with stream_file_paths :=
        alistInsert s.stream_file_paths e.file_path logical } with hs₁
  have hmem₁ : logical ∈ s₁.files := hmem
  have hdiff₁ : ¬(alistLookup s₁.file_bodies logical = some (env.fs logical)) :=
    hdiff
  constructor
  · rw [heq]
    simp only [emit_candidate, hown]
    simp
  · rw [heq, emit_candidate_state,
      update_file_bodies_eq env.fs s₁ logical hmem₁, if_neg hdiff₁]
    simp [alistLookup_insert]

/-- C5 witness: an own-write event on watched file "a" whose content moved
from cached `[1]` to `[2]`: no signal, cache updated to `[2]`. -/
theorem C5_witness :
    (process_event
        ⟨fun _ => some [2],
          fun p => if p = "/r/a" then some "ra"
            else if p = "a" then some "ra" else none,
          true, true⟩
        (⟨["a"], true, [], [("a", some [1])], true⟩ : FileMonitorState)
        ⟨"/r/a", false, false, false, true⟩).2 = [] ∧
    alistLookup (process_event
        ⟨fun _ => some [2],
          fun p => if p = "/r/a" then some "ra"
            else if p = "a" then some "ra" else none,
          true, true⟩
        (⟨["a"], true, [], [("a", some [1])], true⟩ : FileMonitorState)
        ⟨"/r/a", false, false, false, true⟩).1.file_bodies "a" =
      some (some [2]) :=
  C5_own_event_suppression
    ⟨fun _ => some [2],
      fun p => if p = "/r/a" then some "ra"
        else if p = "a" then some "ra" else none,
      true, true⟩
    ⟨["a"], true, [], [("a", some [1])], true⟩
    ⟨"/r/a", false, false, false, true⟩ "ra" "a"
    (by decide) rfl rfl rfl (by decide)

/-- C6: `async_start` (which runs `register_stream` on the dispatcher) is
idempotent: whenever the stream handle already exists it is a no-op, and
(provided `FSEventStreamCreate` succeeds) a second `async_start` right after
a first one changes nothing and emits nothing, so starting twice produces
one OS subscription and one initial reconciliation pass. -/
theorem C6_start_idempotent (env : OSEnv) (s : FileMonitorState) :
    (s.stream = true → async_start env s = (s, [])) ∧
    (env.createOk = true →
      async_start env (async_start env s).1 = ((async_start env s).1, [])) := by
  constructor
  · intro h
    exact register_stream_skip env s h
  · intro hco
    cases h₁ : s.stream with
    | true =>
        have hfst : async_start env s = (s, []) := register_stream_skip env s h₁
        rw [hfst]
        exact register_stream_skip env s h₁
    | false =>
        cases h₂ : s.directoriesOk with
        | true =>
            have hset : (async_start env s).1.stream = true :=
              register_stream_stream_set env s h₁ h₂ hco
            exact register_stream_skip env _ hset
        | false =>
            have hfst : async_start env s = (s, []) :=
              register_stream_no_dirs env s h₂
            rw [hfst]
            exact register_stream_no_dirs env s h₂

/-- C6 witness: starting a monitor whose stream handle already exists is a
no-op. -/
theorem C6_witness :
    async_start ⟨fun _ => none, fun _ => none, true, true⟩
        (⟨["a"], true, [], [], true⟩ : FileMonitorState) =
      ((⟨["a"], true, [], [], true⟩ : FileMonitorState), []) :=
  (C6_start_idempotent ⟨fun _ => none, fun _ => none, true, true⟩
    ⟨["a"], true, [], [], true⟩).1 rfl

/-- C7: path reconciliation of a non-recovery event: if `realpath` succeeds
and equals the `realpath` of a watched file found in `files_`, the alias
table records OS-path → logical path and that logical path becomes the
candidate; if `realpath` fails and an alias exists, the aliased logical path
becomes the candidate and the alias is erased; if neither resolves, the event
is ignored and the state is unchanged. -/
theorem C7_path_reconciliation (env : OSEnv) (s : FileMonitorState)
    (e : FsEvent)
    (hflags : (e.rootChanged || e.kernelDropped || e.userDropped) = false) :
    (∀ rp logical, env.realpath e.file_path = some rp →
      s.files.find? (fun p => env.realpath p == some rp) = some logical →
      process_event env s e =
        emit_candidate env
          { s with stream_file_paths :=
              alistInsert s.stream_file_paths e.file_path logical }
          logical e.ownEvent) ∧
    (∀ rp, env.realpath e.file_path = some rp →
      s.files.find? (fun p => env.realpath p == some rp) = none →
      process_event env s e = (s, [])) ∧
    (∀ logical, env.realpath e.file_path = none →
      alistLookup s.stream_file_paths e.file_path = some logical →
      process_event env s e =
        emit_candidate env
          { s with stream_file_paths :=
              alistErase s.stream_file_paths e.file_path }
          logical e.ownEvent) ∧
    (env.realpath e.file_path = none →
      alistLookup s.stream_file_paths e.file_path = none →
      process_event env s e = (s, [])) :=
  ⟨fun rp logical hrp hfind =>
      process_event_realpath_hit env s e rp logical hflags hrp hfind,
    fun rp hrp hfind =>
      process_event_realpath_nomatch env s e rp hflags hrp hfind,
    fun logical hrp hl =>
      process_event_alias_hit env s e logical hflags hrp hl,
    fun hrp hl => process_event_alias_miss env s e hflags hrp hl⟩

/-- C7 witness: a deleted file ("/r/a" no longer canonicalizes) whose alias
"/r/a" → "a" is stored: the alias is consumed and "a" becomes the
candidate. -/
theorem C7_witness :
    process_event ⟨fun _ => none, fun _ => none, true, true⟩
        (⟨["a"], true, [("/r/a", "a")], [("a", some [1])], true⟩ :
          FileMonitorState)
        ⟨"/r/a", false, false, false, false⟩ =
      emit_candidate ⟨fun _ => none, fun _ => none, true, true⟩
        (⟨["a"], true, alistErase [("/r/a", "a")] "/r/a",
          [("a", some [1])], true⟩ : FileMonitorState)
        "a" false :=
  (C7_path_reconciliation ⟨fun _ => none, fun _ => none, true, true⟩
    (⟨["a"], true, [("/r/a", "a")], [("a", some [1])], true⟩ :
      FileMonitorState)
    ⟨"/r/a", false, false, false, false⟩ (by decide)).2.2.1 "a" rfl rfl

/-- C8: `error_occurred` is emitted iff OS subscription creation or start
fails: a non-recovery event never enqueues an error (unreadable or absent
files and unmatched event paths are handled silently), a recovery-flagged
event enqueues exactly the errors of its embedded re-registration, and
`register_stream` enqueues exactly one creation error when
`FSEventStreamCreate` fails, exactly one start error when
`FSEventStreamStart` fails, and none otherwise. -/
theorem C8_error_only_subscription (env : OSEnv) (s : FileMonitorState)
    (e : FsEvent) :
    ((e.rootChanged || e.kernelDropped || e.userDropped) = false →
      (process_event env s e).2.filter Signal.is_error = []) ∧
    ((e.rootChanged || e.kernelDropped || e.userDropped) = true →
      (process_event env s e).2.filter Signal.is_error =
        (register_stream env (unregister_stream s)).2.filter Signal.is_error) ∧
    ((register_stream env s).2.filter Signal.is_error =
      if s.stream = false ∧ s.directoriesOk = true then
        if env.createOk = true then
          if env.startOk = true then []
          else [Signal.error_occurred "FSEventStreamStart is failed."]
        else [Signal.error_occurred "FSEventStreamCreate is failed."]
      else []) := by
  have hemit : ∀ (t : FileMonitorState) (path : String) (own : Bool),
      (emit_candidate env t path own).2.filter Signal.is_error = [] := by
    intro t path own
    refine List.filter_eq_nil_iff.mpr fun sig hsig => ?_
    rw [emit_candidate_no_error env t path own sig hsig]
    simp
  have hscan : ∀ (t : FileMonitorState),
      (scan_files env.fs t t.files).2.filter Signal.is_error = [] := by
    intro t
    refine List.filter_eq_nil_iff.mpr fun sig hsig => ?_
    rw [scan_files_no_error env.fs t t.files sig hsig]
    simp
  refine ⟨?_, ?_, ?_⟩
  · intro hflags
    cases hrp : env.realpath e.file_path with
    | some rp =>
        cases hfind : s.files.find? (fun p => env.realpath p == some rp) with
        | some logical =>
            rw [process_event_realpath_hit env s e rp logical hflags hrp hfind]
            exact hemit _ logical e.ownEvent
        | none =>
            rw [process_event_realpath_nomatch env s e rp hflags hrp hfind]
            rfl
    | none =>
        cases hl : alistLookup s.stream_file_paths e.file_path with
        | some logical =>
            rw [process_event_alias_hit env s e logical hflags hrp hl]
            exact hemit _ logical e.ownEvent
        | none =>
            rw [process_event_alias_miss env s e hflags hrp hl]
            rfl
  · intro hflags
    rw [process_event_recovery env s e hflags]
  · cases h₁ : s.stream with
    | true =>
        rw [register_stream_skip env s h₁]
        simp
    | false =>
        cases h₂ : s.directoriesOk with
        | false =>
            rw [register_stream_no_dirs env s h₂]
            simp
        | true =>
            cases hco : env.createOk with
            | true =>
                cases hso : env.startOk with
                | true =>
                    rw [register_stream_output_ok env s h₁ h₂ hco hso]
                    simpa using hscan s
                | false =>
                    rw [register_stream_output_start_fail env s h₁ h₂ hco hso]
                    simp [List.filter_append, hscan s, Signal.is_error]
            | false =>
                rw [register_stream_output_create_fail env s h₁ h₂ hco]
                simp [List.filter_append, hscan s, Signal.is_error]

/-- C8 witness: a non-recovery event on an unreadable watched file emits no
error signal. -/
theorem C8_witness :
    (process_event ⟨fun _ => none, fun _ => none, true, true⟩
        (⟨["a"], true, [("/r/a", "a")], [("a", some [1])], true⟩ :
          FileMonitorState)
        ⟨"/r/a", false, false, false, false⟩).2.filter Signal.is_error = [] :=
  (C8_error_only_subscription ⟨fun _ => none, fun _ => none, true, true⟩
    (⟨["a"], true, [("/r/a", "a")], [("a", some [1])], true⟩ :
      FileMonitorState)
    ⟨"/r/a", false, false, false, false⟩).1 rfl
